import Mathlib

/-!
Verification of the CamBANG provider contract headers.

This file is a shallow embedding of the C++ declarations in
`src/provider/provider_contract_datatypes.h`,
`src/provider/icamera_provider.h` and
`src/provider/provider_error_string.cpp`, together with theorems checking
the natural-language specification of the provider interface contract
against those declarations.

Modelling conventions:
- C++ pointers are modelled as natural-number addresses, with the null
  pointer modelled as the address 0.
- The underlying type of `ProviderError` is `uint32_t`, so the value space
  of a `ProviderError` argument is wider than its nine enumerators; raw
  enum values are modelled as `Nat`, and `ProviderError.val` gives each
  enumerator its implicit C++ value (OK = 0, then successive increments).
- The abstract interfaces `ICameraProvider` and `IProviderCallbacks`
  consist only of method declarations (no bodies), so they are embedded as
  their signatures: an inductive of method names together with tables of
  parameter types and return types read off the header.
- The effect of calling through the `release` function pointer of a
  `FrameView` is modelled as an explicit trace of call events: a
  `ReleaseCall` records the function pointer invoked, the user pointer
  passed as the first argument, and the frame whose address is passed as
  the second argument (`this` in the C++ body).
-/

/-- Error categories for provider results, from `provider_contract_datatypes.h`:
`enum class ProviderError : uint32_t`, enumerators in declaration order. -/
inductive ProviderError : Type where
  | OK
  | ERR_NOT_SUPPORTED
  | ERR_INVALID_ARGUMENT
  | ERR_BUSY
  | ERR_BAD_STATE
  | ERR_PLATFORM_CONSTRAINT
  | ERR_TRANSIENT_FAILURE
  | ERR_PROVIDER_FAILED
  | ERR_SHUTTING_DOWN
deriving DecidableEq, Fintype

/-- Numeric value of each enumerator: the C++ enum assigns `OK = 0` and the
following enumerators the successive values 1..8. -/
def ProviderError.val : ProviderError → Nat
  | .OK => 0
  | .ERR_NOT_SUPPORTED => 1
  | .ERR_INVALID_ARGUMENT => 2
  | .ERR_BUSY => 3
  | .ERR_BAD_STATE => 4
  | .ERR_PLATFORM_CONSTRAINT => 5
  | .ERR_TRANSIENT_FAILURE => 6
  | .ERR_PROVIDER_FAILED => 7
  | .ERR_SHUTTING_DOWN => 8

/-- Source identifier of each enumerator, as spelled in the header. -/
def ProviderError.name : ProviderError → String
  | .OK => "OK"
  | .ERR_NOT_SUPPORTED => "ERR_NOT_SUPPORTED"
  | .ERR_INVALID_ARGUMENT => "ERR_INVALID_ARGUMENT"
  | .ERR_BUSY => "ERR_BUSY"
  | .ERR_BAD_STATE => "ERR_BAD_STATE"
  | .ERR_PLATFORM_CONSTRAINT => "ERR_PLATFORM_CONSTRAINT"
  | .ERR_TRANSIENT_FAILURE => "ERR_TRANSIENT_FAILURE"
  | .ERR_PROVIDER_FAILED => "ERR_PROVIDER_FAILED"
  | .ERR_SHUTTING_DOWN => "ERR_SHUTTING_DOWN"

/-- The enumerators of `ProviderError`, in declaration order. -/
def ProviderError.codes : List ProviderError :=
  [.OK, .ERR_NOT_SUPPORTED, .ERR_INVALID_ARGUMENT, .ERR_BUSY, .ERR_BAD_STATE,
   .ERR_PLATFORM_CONSTRAINT, .ERR_TRANSIENT_FAILURE, .ERR_PROVIDER_FAILED,
   .ERR_SHUTTING_DOWN]

/-- Embedding of `to_string(ProviderError)` from `provider_error_string.cpp`.
The C++ parameter is an enum with `uint32_t` underlying type, so the switch
is over the raw numeric value: each `case` compares against one enumerator
value and the `default` branch covers every other representable value. -/
def to_string (v : Nat) : String :=
  if v = ProviderError.OK.val then "OK"
  else if v = ProviderError.ERR_NOT_SUPPORTED.val then "ERR_NOT_SUPPORTED"
  else if v = ProviderError.ERR_INVALID_ARGUMENT.val then "ERR_INVALID_ARGUMENT"
  else if v = ProviderError.ERR_BUSY.val then "ERR_BUSY"
  else if v = ProviderError.ERR_BAD_STATE.val then "ERR_BAD_STATE"
  else if v = ProviderError.ERR_PLATFORM_CONSTRAINT.val then "ERR_PLATFORM_CONSTRAINT"
  else if v = ProviderError.ERR_TRANSIENT_FAILURE.val then "ERR_TRANSIENT_FAILURE"
  else if v = ProviderError.ERR_PROVIDER_FAILED.val then "ERR_PROVIDER_FAILED"
  else if v = ProviderError.ERR_SHUTTING_DOWN.val then "ERR_SHUTTING_DOWN"
  else "UNKNOWN_PROVIDER_ERROR"

/-- Result of a provider method call: `struct ProviderResult` with a single
field `code`, default `ProviderError::OK`. -/
structure ProviderResult where
  code : ProviderError
deriving DecidableEq, Fintype

/-- Member `ok()`: `code == ProviderError::OK`. -/
def ProviderResult.ok (r : ProviderResult) : Bool :=
  r.code = ProviderError.OK

/-- Static member `success()`: a result with code `OK`. -/
def ProviderResult.success : ProviderResult := ⟨ProviderError.OK⟩

/-- Static member `failure(c)`: a result carrying the given code. -/
def ProviderResult.failure (c : ProviderError) : ProviderResult := ⟨c⟩

/-- Hardware endpoint as reported by provider enumeration:
`struct CameraEndpoint` with fields `hardware_id` (stable platform camera
identifier) and `name` (optional human-readable label, may be empty). -/
structure CameraEndpoint where
  hardware_id : String
  name : String
deriving DecidableEq

/-- Pointer values: natural-number addresses, null = 0. -/
abbrev Ptr := Nat

/-- Frame view delivered from provider, from `provider_contract_datatypes.h`.
Field order and meaning follow the struct; `data`, `release` and
`release_user` are pointers (null = 0). -/
structure FrameView where
  device_instance_id : Nat
  stream_id : Nat
  capture_id : Nat
  width : Nat
  height : Nat
  format_fourcc : Nat
  timestamp_ns : Nat
  data : Ptr
  size_bytes : Nat
  stride_bytes : Nat
  release : Ptr
  release_user : Ptr
deriving DecidableEq

/-- Default-constructed `FrameView`: every member initializer in the struct
is `= 0` or `= nullptr`. -/
def FrameView.default : FrameView := ⟨0, 0, 0, 0, 0, 0, 0, 0, 0, 0, 0, 0⟩

/-- One invocation through a frame release hook: the function pointer
called, the user pointer passed first, and the frame whose address is
passed second (`this`). -/
structure ReleaseCall where
  fn : Ptr
  user : Ptr
  frame : FrameView
deriving DecidableEq

/-- Embedding of `FrameView::release_now()`:
`if (release) { release(release_user, this); }`.
The result is the trace of release-hook invocations the call performs. -/
def FrameView.release_now (f : FrameView) : List ReleaseCall :=
  if f.release ≠ 0 then [⟨f.release, f.release_user, f⟩] else []

/-- Methods of the core-facing provider interface `ICameraProvider`, in
declaration order. The constructor `init` stands for the C++ method named
`initialize` (that identifier is a reserved word in Lean). -/
inductive ProviderMethod : Type where
  | provider_name
  | init
  | enumerate_endpoints
  | open_device
  | close_device
  | create_stream
  | destroy_stream
  | start_stream
  | stop_stream
  | trigger_capture
  | abort_capture
  | apply_camera_spec_patch
  | apply_imaging_spec_patch
  | shutdown
deriving DecidableEq, Fintype

/-- Return types occurring in `ICameraProvider`: `ProviderResult`, or
`const char*` (for `provider_name`). -/
inductive ProviderRetTy : Type where
  | providerResult
  | cstring
deriving DecidableEq

/-- Parameter types occurring in `ICameraProvider` method signatures. -/
inductive ProviderArgTy : Type where
  | callbacksPtr
  | stringRef
  | u64
  | streamRequestRef
  | captureRequestRef
  | specPatch
  | endpointVecOut
deriving DecidableEq

/-- Return type of each `ICameraProvider` method, read off the header. -/
def ProviderMethod.ret : ProviderMethod → ProviderRetTy
  | .provider_name => .cstring
  | .init => .providerResult
  | .enumerate_endpoints => .providerResult
  | .open_device => .providerResult
  | .close_device => .providerResult
  | .create_stream => .providerResult
  | .destroy_stream => .providerResult
  | .start_stream => .providerResult
  | .stop_stream => .providerResult
  | .trigger_capture => .providerResult
  | .abort_capture => .providerResult
  | .apply_camera_spec_patch => .providerResult
  | .apply_imaging_spec_patch => .providerResult
  | .shutdown => .providerResult

/-- Parameter list of each `ICameraProvider` method, read off the header. -/
def ProviderMethod.params : ProviderMethod → List ProviderArgTy
  | .provider_name => []
  | .init => [.callbacksPtr]
  | .enumerate_endpoints => [.endpointVecOut]
  | .open_device => [.stringRef, .u64, .u64]
  | .close_device => [.u64]
  | .create_stream => [.streamRequestRef]
  | .destroy_stream => [.u64]
  | .start_stream => [.u64]
  | .stop_stream => [.u64]
  | .trigger_capture => [.captureRequestRef]
  | .abort_capture => [.u64]
  | .apply_camera_spec_patch => [.stringRef, .u64, .specPatch]
  | .apply_imaging_spec_patch => [.u64, .specPatch]
  | .shutdown => []

/-- The methods of `ICameraProvider`, in declaration order. -/
def ProviderMethod.all : List ProviderMethod :=
  [.provider_name, .init, .enumerate_endpoints, .open_device, .close_device,
   .create_stream, .destroy_stream, .start_stream, .stop_stream,
   .trigger_capture, .abort_capture, .apply_camera_spec_patch,
   .apply_imaging_spec_patch, .shutdown]

/-- Callbacks of the provider-to-core sink `IProviderCallbacks`, in
declaration order. -/
inductive CallbackMethod : Type where
  | on_device_opened
  | on_device_closed
  | on_stream_created
  | on_stream_destroyed
  | on_stream_started
  | on_stream_stopped
  | on_capture_started
  | on_capture_completed
  | on_capture_failed
  | on_frame
  | on_device_error
  | on_stream_error
  | on_native_object_created
  | on_native_object_destroyed
deriving DecidableEq, Fintype

/-- Parameter types occurring in `IProviderCallbacks` signatures. -/
inductive CbArgTy : Type where
  | u64
  | perror
  | frameRef
  | ncreateRef
  | ndestroyRef
deriving DecidableEq

/-- Parameter list of each callback, read off the header. All callbacks
return `void`. -/
def CallbackMethod.params : CallbackMethod → List CbArgTy
  | .on_device_opened => [.u64]
  | .on_device_closed => [.u64]
  | .on_stream_created => [.u64]
  | .on_stream_destroyed => [.u64]
  | .on_stream_started => [.u64]
  | .on_stream_stopped => [.u64, .perror]
  | .on_capture_started => [.u64]
  | .on_capture_completed => [.u64]
  | .on_capture_failed => [.u64, .perror]
  | .on_frame => [.frameRef]
  | .on_device_error => [.u64, .perror]
  | .on_stream_error => [.u64, .perror]
  | .on_native_object_created => [.ncreateRef]
  | .on_native_object_destroyed => [.ndestroyRef]

/-- The callbacks of `IProviderCallbacks`, in declaration order. -/
def CallbackMethod.all : List CallbackMethod :=
  [.on_device_opened, .on_device_closed, .on_stream_created,
   .on_stream_destroyed, .on_stream_started, .on_stream_stopped,
   .on_capture_started, .on_capture_completed, .on_capture_failed,
   .on_frame, .on_device_error, .on_stream_error,
   .on_native_object_created, .on_native_object_destroyed]

/-- C1: the provider error-code type defines exactly the nine codes the spec
lists — OK, ERR_NOT_SUPPORTED, ERR_INVALID_ARGUMENT, ERR_BUSY,
ERR_BAD_STATE, ERR_PLATFORM_CONSTRAINT, ERR_TRANSIENT_FAILURE,
ERR_PROVIDER_FAILED, ERR_SHUTTING_DOWN — with no duplicates, no additional
named codes and none missing, so the code of every `ProviderResult` lies in
this set. -/
theorem C1_provider_error_is_exactly_nine_codes :
    ProviderError.codes =
      [ProviderError.OK, ProviderError.ERR_NOT_SUPPORTED,
       ProviderError.ERR_INVALID_ARGUMENT, ProviderError.ERR_BUSY,
       ProviderError.ERR_BAD_STATE, ProviderError.ERR_PLATFORM_CONSTRAINT,
       ProviderError.ERR_TRANSIENT_FAILURE, ProviderError.ERR_PROVIDER_FAILED,
       ProviderError.ERR_SHUTTING_DOWN]
    ∧ ProviderError.codes.Nodup
    ∧ ProviderError.codes.length = 9
    ∧ (∀ e : ProviderError, e ∈ ProviderError.codes)
    ∧ (∀ r : ProviderResult, r.code ∈ ProviderError.codes) := by
  refine ⟨rfl, by decide, rfl, by decide, ?_⟩
  intro r
  exact (by decide : ∀ e : ProviderError, e ∈ ProviderError.codes) r.code

/-- C2 counterexample: the claim — that each of ERR_INVALID_ARGUMENT,
ERR_NOT_SUPPORTED and ERR_PROFILE_INCOMPATIBLE is denoted by some
enumerator of the provider error-code type — is false, because no
enumerator of `ProviderError` is named ERR_PROFILE_INCOMPATIBLE. -/
theorem C2_counterexample_profile_incompatible_missing :
    ¬ ((∃ e : ProviderError, e.name = "ERR_INVALID_ARGUMENT")
       ∧ (∃ e : ProviderError, e.name = "ERR_NOT_SUPPORTED")
       ∧ (∃ e : ProviderError, e.name = "ERR_PROFILE_INCOMPATIBLE")) := by
  decide

/-- C2 (amended): of the three profile-validation error reasons, the two
provider-level reasons ERR_INVALID_ARGUMENT and ERR_NOT_SUPPORTED are each
denoted by an enumerator of `ProviderError`, while the core-specific reason
ERR_PROFILE_INCOMPATIBLE is denoted by no enumerator of `ProviderError`. -/
theorem C2_validation_reasons_in_provider_error :
    ("ERR_INVALID_ARGUMENT" ∈ ProviderError.codes.map ProviderError.name)
    ∧ ("ERR_NOT_SUPPORTED" ∈ ProviderError.codes.map ProviderError.name)
    ∧ ((ProviderError.codes.map ProviderError.name).contains
         "ERR_PROFILE_INCOMPATIBLE" = false) := by
  decide

/-- C3 counterexample: the claim — that every method of the provider
interface named by the spec returns a `ProviderResult` — is false at the
method `provider_name`, whose return type is `const char*`. -/
theorem C3_counterexample_provider_name_returns_cstring :
    ProviderMethod.ret ProviderMethod.provider_name ≠
      ProviderRetTy.providerResult := by
  decide

/-- C3 (amended): every method of `ICameraProvider` other than
`provider_name` returns a `ProviderResult`; `provider_name` alone returns a
C string. -/
theorem C3_methods_return_provider_result :
    ∀ m : ProviderMethod, m ≠ ProviderMethod.provider_name →
      m.ret = ProviderRetTy.providerResult := by
  decide

/-- C3 witness: the amended theorem applied at the concrete method
`shutdown`. -/
theorem C3_methods_return_provider_result_witness :
    ProviderMethod.ret ProviderMethod.shutdown = ProviderRetTy.providerResult :=
  C3_methods_return_provider_result ProviderMethod.shutdown (by decide)

/-- C4: the provider-to-core callback sink exposes exactly the fourteen
callbacks the spec lists, with no duplicates and none missing;
`on_stream_stopped` carries a stream id and an error-or-OK code,
`on_capture_failed` carries a capture id and an error code, and `on_frame`
carries a `FrameView`. -/
theorem C4_callback_sink_shape :
    CallbackMethod.all =
      [CallbackMethod.on_device_opened, CallbackMethod.on_device_closed,
       CallbackMethod.on_stream_created, CallbackMethod.on_stream_destroyed,
       CallbackMethod.on_stream_started, CallbackMethod.on_stream_stopped,
       CallbackMethod.on_capture_started, CallbackMethod.on_capture_completed,
       CallbackMethod.on_capture_failed, CallbackMethod.on_frame,
       CallbackMethod.on_device_error, CallbackMethod.on_stream_error,
       CallbackMethod.on_native_object_created,
       CallbackMethod.on_native_object_destroyed]
    ∧ CallbackMethod.all.Nodup
    ∧ CallbackMethod.all.length = 14
    ∧ (∀ m : CallbackMethod, m ∈ CallbackMethod.all)
    ∧ CallbackMethod.params CallbackMethod.on_stream_stopped = [.u64, .perror]
    ∧ CallbackMethod.params CallbackMethod.on_capture_failed = [.u64, .perror]
    ∧ CallbackMethod.params CallbackMethod.on_frame = [.frameRef] := by
  refine ⟨rfl, by decide, rfl, by decide, rfl, rfl, rfl⟩

/-- C5: for every `FrameView` whose release hook is non-null, `release_now`
invokes the release function exactly once, passing the stored
`release_user` pointer and the address of that same frame. -/
theorem C5_release_now_invokes_exactly_once :
    ∀ f : FrameView, f.release ≠ 0 →
      f.release_now = [⟨f.release, f.release_user, f⟩] := by
  intro f h
  simp [FrameView.release_now, h]

/-- C5 witness: a concrete frame with release hook at address 5 and user
pointer 7; `release_now` produces exactly one call with those values and
the frame itself. -/
theorem C5_release_now_invokes_exactly_once_witness :
    FrameView.release_now ⟨0, 0, 0, 0, 0, 0, 0, 3, 0, 0, 5, 7⟩ =
      [⟨5, 7, ⟨0, 0, 0, 0, 0, 0, 0, 3, 0, 0, 5, 7⟩⟩] :=
  C5_release_now_invokes_exactly_once ⟨0, 0, 0, 0, 0, 0, 0, 3, 0, 0, 5, 7⟩
    (by decide)

/-- C6: a default-constructed `FrameView` satisfies every sentinel
convention of the spec: all integer fields are 0 (stream_id 0 =
capture-only, capture_id 0 = stream frame, timestamp_ns 0 = unknown,
stride_bytes 0 = packed/unknown) and the pointers `data`, `release`,
`release_user` are null (address 0). -/
theorem C6_default_frame_view_sentinels :
    FrameView.default.device_instance_id = 0
    ∧ FrameView.default.stream_id = 0
    ∧ FrameView.default.capture_id = 0
    ∧ FrameView.default.width = 0
    ∧ FrameView.default.height = 0
    ∧ FrameView.default.format_fourcc = 0
    ∧ FrameView.default.timestamp_ns = 0
    ∧ FrameView.default.data = 0
    ∧ FrameView.default.size_bytes = 0
    ∧ FrameView.default.stride_bytes = 0
    ∧ FrameView.default.release = 0
    ∧ FrameView.default.release_user = 0 := by
  decide

/-- C7: an endpoint record carries exactly a `hardware_id` string and a
`name` string — two endpoints agreeing on both fields are equal, every pair
of strings is realised by an endpoint — and `enumerate_endpoints` takes a
single out-parameter that is a vector of `CameraEndpoint`. -/
theorem C7_endpoint_record_shape :
    (∀ a b : CameraEndpoint,
       a.hardware_id = b.hardware_id → a.name = b.name → a = b)
    ∧ (∀ h n : String,
       ∃ e : CameraEndpoint, e.hardware_id = h ∧ e.name = n)
    ∧ ProviderMethod.params ProviderMethod.enumerate_endpoints =
        [ProviderArgTy.endpointVecOut] := by
  refine ⟨?_, ?_, rfl⟩
  · intro a b h1 h2
    cases a
    cases b
    simp_all
  · intro h n
    exact ⟨⟨h, n⟩, rfl, rfl⟩

/-- C7 witness: the field-determinacy part of the theorem applied at the
concrete endpoint with hardware_id "cam0" and name "Front". -/
theorem C7_endpoint_record_shape_witness :
    (⟨"cam0", "Front"⟩ : CameraEndpoint) = ⟨"cam0", "Front"⟩ :=
  C7_endpoint_record_shape.1 ⟨"cam0", "Front"⟩ ⟨"cam0", "Front"⟩ rfl rfl

/-- C8: `to_string` is total and deterministic — each of the nine named
codes maps to exactly its identifier name, distinct named codes map to
distinct strings, every raw value outside the nine named codes maps to
"UNKNOWN_PROVIDER_ERROR", and the result is always a nonempty string. -/
theorem C8_to_string_total_and_faithful :
    (∀ e : ProviderError, to_string e.val = e.name)
    ∧ (∀ e1 e2 : ProviderError,
        to_string e1.val = to_string e2.val → e1 = e2)
    ∧ (∀ v : Nat, (∀ e : ProviderError, v ≠ e.val) →
        to_string v = "UNKNOWN_PROVIDER_ERROR")
    ∧ (∀ v : Nat, (to_string v).length > 0) := by
  refine ⟨by decide, by decide, ?_, ?_⟩
  · intro v h
    simp only [to_string]
    rw [if_neg (h ProviderError.OK), if_neg (h ProviderError.ERR_NOT_SUPPORTED),
      if_neg (h ProviderError.ERR_INVALID_ARGUMENT),
      if_neg (h ProviderError.ERR_BUSY), if_neg (h ProviderError.ERR_BAD_STATE),
      if_neg (h ProviderError.ERR_PLATFORM_CONSTRAINT),
      if_neg (h ProviderError.ERR_TRANSIENT_FAILURE),
      if_neg (h ProviderError.ERR_PROVIDER_FAILED),
      if_neg (h ProviderError.ERR_SHUTTING_DOWN)]
  · intro v
    simp only [to_string]
    repeat' split
    all_goals decide

/-- C8 witness: the theorem's default-branch part applied at the concrete
raw value 99, which is none of the nine enumerator values. -/
theorem C8_to_string_total_and_faithful_witness :
    to_string 99 = "UNKNOWN_PROVIDER_ERROR" :=
  C8_to_string_total_and_faithful.2.2.1 99 (by decide)

/-- C9: the `ProviderResult` helpers form a consistent algebra —
`failure(c).code = c`, `success().code = OK`, `ok()` holds exactly when the
code is OK, hence `success().ok()` holds and `failure(c).ok()` holds
exactly when `c` is OK. -/
theorem C9_provider_result_algebra :
    (∀ c : ProviderError, (ProviderResult.failure c).code = c)
    ∧ ProviderResult.success.code = ProviderError.OK
    ∧ (∀ r : ProviderResult, r.ok = true ↔ r.code = ProviderError.OK)
    ∧ ProviderResult.success.ok = true
    ∧ (∀ c : ProviderError,
        (ProviderResult.failure c).ok = true ↔ c = ProviderError.OK) := by
  refine ⟨fun c => rfl, rfl, ?_, by decide, ?_⟩
  · intro r
    obtain ⟨c⟩ := r
    cases c <;> decide
  · intro c
    cases c <;> decide

/-- C10: calling `release_now` on a `FrameView` whose release hook is null
invokes no function: the trace of release-hook invocations is empty. -/
theorem C10_release_now_null_is_noop :
    ∀ f : FrameView, f.release = 0 → f.release_now = [] := by
  intro f h
  simp [FrameView.release_now, h]

/-- C10 witness: the theorem applied at the default-constructed frame,
whose release hook is null. -/
theorem C10_release_now_null_is_noop_witness :
    FrameView.default.release_now = [] :=
  C10_release_now_null_is_noop FrameView.default rfl
